import Mathlib

/-!
Shallow embedding of the monit sensor-logging repository (src/script.py and
src/GUI-test.py): response parsing, the two record sinks, identifier
sanitization, provisioning, and the acquisition loop, with theorems settling
the specification claims.

Numeric sensor values are modelled exactly: every token the device emits is a
finite decimal literal, represented as a signed mantissa with a fractional
digit count (interpreted into ℚ by Decn.toRat). The claims concern which
tokens convert and what structured record results, not floating-point
rounding.
-/

/-- Characters Python's str.split() treats as separators (the ASCII
whitespace set: space, tab, newline, carriage return, vertical tab,
form feed). -/
def pyIsSpace (c : Char) : Bool :=
  c == ' ' || c == '\t' || c == '\n' || c == '\r' ||
    c == Char.ofNat 11 || c == Char.ofNat 12

/-- Worker for pySplit: walks the character list keeping the (reversed)
current token in acc, emitting a token at each separator run boundary. -/
def splitWsAux : List Char → List Char → List String
  | [], acc => if acc = [] then [] else [String.mk acc.reverse]
  | c :: cs, acc =>
    if pyIsSpace c then
      if acc = [] then splitWsAux cs []
      else String.mk acc.reverse :: splitWsAux cs []
    else splitWsAux cs (c :: acc)

/-- Embeds Python's response.split() with no argument: split on runs of
whitespace, discarding leading and trailing separators, never producing
empty tokens. -/
def pySplit (s : String) : List String :=
  splitWsAux s.data []

/-- Value of a list of decimal digit characters read left to right. -/
def digitsToNat (ds : List Char) : ℕ :=
  ds.foldl (fun n c => 10 * n + (c.toNat - 48)) 0

/-- Exact value of a finite decimal literal: a signed mantissa together with
the count of fractional digits, denoting mant / 10 ^ fexp. Every token this
device emits is such a literal, so the float() result is represented exactly;
equality is structural, which on one fixed token spelling is the identity the
claims need. -/
structure Decn where
  mant : ℤ
  fexp : ℕ
deriving DecidableEq, Repr

/-- Rational value denoted by a parsed decimal literal. -/
def Decn.toRat (d : Decn) : ℚ :=
  (d.mant : ℚ) / 10 ^ d.fexp

/-- Negation of a parsed decimal (a leading minus sign on the token). -/
def Decn.neg (d : Decn) : Decn :=
  ⟨-d.mant, d.fexp⟩

/-- Unsigned part of the float() model: a decimal literal
digits [. digits] or . digits, with at least one digit in total and
nothing trailing. -/
def pyFloatCore (cs : List Char) : Option Decn :=
  let ip := cs.takeWhile Char.isDigit
  let rest := cs.dropWhile Char.isDigit
  match rest with
  | [] => if ip = [] then none else some ⟨(digitsToNat ip : ℤ), 0⟩
  | c :: rest2 =>
    if c == '.' then
      let fp := rest2.takeWhile Char.isDigit
      let rest3 := rest2.dropWhile Char.isDigit
      if rest3 = [] && !(ip = [] && fp = []) then
        some ⟨(digitsToNat ip * 10 ^ fp.length + digitsToNat fp : ℤ), fp.length⟩
      else none
    else none

/-- Embeds Python float(token) on whitespace-free tokens: an optional sign
followed by a finite decimal literal, returning none (the ValueError branch)
on anything else. Exponent, inf and nan spellings never occur on this wire
protocol and are treated as non-numeric. -/
def pyFloat (s : String) : Option Decn :=
  match s.data with
  | [] => none
  | c :: cs =>
    if c == '+' then pyFloatCore cs
    else if c == '-' then (pyFloatCore cs).map Decn.neg
    else pyFloatCore (c :: cs)

/-- The structured reading parse_response builds: command echo, five numeric
fields, and the trailing status word (empty when absent). -/
structure SensorReading where
  command : String
  pressure : Decn
  temperature : Decn
  x : Decn
  y : Decn
  air_value : Decn
  air_status : String
deriving DecidableEq, Repr

/-- Embeds parse_response from src/script.py lines 69-96 (identical logic in
src/GUI-test.py lines 49-65): split the line on whitespace; with at least 6
tokens convert tokens 1..5 with float() and take token 6 as air_status when
present; a conversion failure is caught (ValueError) and yields None, as does
a line of fewer than 6 tokens. -/
def parse_response (response : String) : Option SensorReading :=
  let parts := pySplit response
  if 6 ≤ parts.length then
    match pyFloat (parts.getD 1 ""), pyFloat (parts.getD 2 ""),
        pyFloat (parts.getD 3 ""), pyFloat (parts.getD 4 ""),
        pyFloat (parts.getD 5 "") with
    | some p, some t, some xv, some yv, some a =>
        some ⟨parts.getD 0 "", p, t, xv, yv, a, parts.getD 6 ""⟩
    | _, _, _, _, _ => none
  else none

/-- Embeds sanitize_identifier from src/GUI-test.py lines 17-19: keep only
the alphanumeric and underscore characters of the name and lower-case the
result (Python applies .lower() to the joined string; on the retained
characters that is the per-character lowering written here). -/
def sanitize_identifier (name : String) : String :=
  String.mk ((name.data.filter (fun c => c.isAlphanum || c == '_')).map Char.toLower)

/-- Embeds the table-name construction in SensorApp.start_logging
(src/GUI-test.py line 208): only the sensor name passes through
sanitize_identifier; the reactor number is interpolated verbatim. -/
def table_name_of (reactor sensor : String) : String :=
  "r" ++ reactor ++ "_" ++ sanitize_identifier sensor ++ "_sensor_data"

/-- Embeds the CSV file-name construction in SensorApp.start_logging
(src/GUI-test.py line 209). -/
def csv_filename_of (reactor sensor : String) : String :=
  table_name_of reactor sensor ++ ".csv"

/-- Embeds the guard structure of SensorApp.start_logging (src/GUI-test.py
lines 198-220): the run starts unless logging is already running, the raw
reactor number or raw sensor name is empty (Python truthiness of the
strings), or database provisioning fails. -/
def start_accepted (running : Bool) (reactor sensor : String) (dbInitOk : Bool) : Bool :=
  !running && !(reactor == "") && !(sensor == "") && dbInitOk

/-- One cell of a CSV row or database row, as handed to csv.writer or the
parameter binding of the INSERT: either a Python string or a numeric value. -/
inductive Cell where
  | str (s : String)
  | num (d : Decn)
deriving DecidableEq, Repr

/-- The header row written on first use, src/script.py line 33 and
src/GUI-test.py line 225. -/
def csv_headers : List String :=
  ["Timestamp", "Command", "Pressure", "Temperature", "X", "Y",
    "Air_Value", "Air_Status"]

/-- Wall-clock instant handed to strftime; datetime.now() is an external
input to the embedding, passed in explicitly. -/
structure DateTime where
  year : ℕ
  month : ℕ
  day : ℕ
  hour : ℕ
  minute : ℕ
  second : ℕ
deriving DecidableEq, Repr

/-- Two-digit zero-padded decimal rendering, as strftime's %m %d %H %M %S
on the bounded fields datetime always carries (month, day, hour, minute,
second are all below 100). -/
def pad2 (n : ℕ) : String :=
  String.mk [Char.ofNat (48 + n / 10), Char.ofNat (48 + n % 10)]

/-- Four-digit zero-padded decimal rendering, as strftime's %Y on the year
field datetime always keeps below 10000. -/
def pad4 (n : ℕ) : String :=
  String.mk [Char.ofNat (48 + n / 1000), Char.ofNat (48 + n / 100 % 10),
    Char.ofNat (48 + n / 10 % 10), Char.ofNat (48 + n % 10)]

/-- Embeds datetime.now().strftime of the pattern used by log_to_csv:
year-month-day space hour:minute:second, all zero-padded. -/
def strftime_ymd_hms (t : DateTime) : String :=
  pad4 t.year ++ "-" ++ pad2 t.month ++ "-" ++ pad2 t.day ++ " " ++
    pad2 t.hour ++ ":" ++ pad2 t.minute ++ ":" ++ pad2 t.second

/-- The reading fields in the order log_to_csv writes them after the
timestamp: src/script.py lines 136-145 lists them explicitly, and
src/GUI-test.py line 100 splats data.values() whose dict insertion order in
parse_response is the same. -/
def readingValues (d : SensorReading) : List Cell :=
  [Cell.str d.command, Cell.num d.pressure, Cell.num d.temperature,
    Cell.num d.x, Cell.num d.y, Cell.num d.air_value,
    Cell.str d.air_status]

/-- Embeds log_to_csv (src/script.py lines 129-147, src/GUI-test.py lines
94-102): take the local time, format it, and append one row holding the
timestamp and the reading fields. The backing file is modelled as the list of
its rows; the OS-level open/write is modelled reliable, so the try/except
around it is never entered. -/
def log_to_csv (data : SensorReading) (now : DateTime)
    (file : List (List Cell)) : List (List Cell) :=
  file ++ [Cell.str (strftime_ymd_hms now) :: readingValues data]

/-- Whether the database connection and statement execution succeed in one
sink call; psycopg2 failures are external inputs to the embedding. -/
inductive DbOutcome where
  | ok
  | err (msg : String)
deriving DecidableEq, Repr

/-- The relational side of one connect-and-execute attempt, as the body of
the try block: on a failure outcome the exception surfaces as an error
value. -/
def dbAttempt (outcome : DbOutcome) : Except String Unit :=
  match outcome with
  | .ok => Except.ok ()
  | .err m => Except.error m

/-- Embeds log_to_database (src/script.py lines 98-127, src/GUI-test.py
lines 67-92): try to connect and insert one parameter-bound row; any raised
exception is caught inside the function, which then returns False, leaving
the table as it was. Returns the success flag and the new table state. -/
def log_to_database (data : SensorReading) (outcome : DbOutcome)
    (db : Option (List (List Cell))) : Bool × Option (List (List Cell)) :=
  match dbAttempt outcome with
  | .error _ => (false, db)
  | .ok _ => (true, some ((db.getD []) ++ [readingValues data]))

/-- Embeds init_database (src/script.py lines 35-67, src/GUI-test.py lines
21-47): CREATE TABLE IF NOT EXISTS — when the connection succeeds, a missing
relation is created empty and an existing one is left untouched with no
duplicate-definition error; a connection failure is caught and reported as
False. Returns the success flag and the new table state. -/
def init_database (outcome : DbOutcome)
    (db : Option (List (List Cell))) : Bool × Option (List (List Cell)) :=
  match dbAttempt outcome with
  | .error _ => (false, db)
  | .ok _ =>
    match db with
    | none => (true, some [])
    | some rows => (true, some rows)

/-- Embeds the header provisioning in SensorApp.start_logging (src/GUI-test.py
lines 222-225) and src/script.py lines 155-159: only when the backing file
does not exist is it created with the single header row. -/
def ensure_csv_header (file : Option (List (List Cell))) :
    Option (List (List Cell)) :=
  match file with
  | none => some [csv_headers.map Cell.str]
  | some rows => some rows

/-- Table existence and CSV state as one run sees them: the two sinks of a
single target. -/
structure SinkState where
  db : Option (List (List Cell))
  csv : List (List Cell)
deriving DecidableEq, Repr

/-- Embeds the dual write of one loop iteration on a successfully parsed
reading (src/GUI-test.py lines 261-262, src/script.py lines 177-180): the
durable-store write runs first — its result flag is returned, never an
exception — and the append-log write for the same reading runs afterwards
unconditionally. -/
def dual_write (data : SensorReading) (now : DateTime) (outcome : DbOutcome)
    (st : SinkState) : SinkState :=
  let r := log_to_database data outcome st.db
  { db := r.2, csv := log_to_csv data now st.csv }

/-- Embeds one body execution of the acquisition loop after the line was
read (src/GUI-test.py lines 259-262, src/script.py lines 174-188): parse the
line; on success fan out to both sinks, on rejection touch neither. -/
def loop_iteration (line : String) (now : DateTime) (outcome : DbOutcome)
    (st : SinkState) : SinkState :=
  match parse_response line with
  | some data => dual_write data now outcome st
  | none => st

/-- External inputs of one iteration: the reply line the bounded read
returned (empty on timeout), the local clock, and the database outcome. -/
structure IterInput where
  line : String
  now : DateTime
  dbOutcome : DbOutcome
deriving DecidableEq, Repr

/-- Sink evolution over a sequence of iterations of the acquisition loop. -/
def run_iterations (inputs : List IterInput) (st : SinkState) : SinkState :=
  inputs.foldl (fun s i => loop_iteration i.line i.now i.dbOutcome s) st

/-- Transport behaviour of one iteration of the GUI serial loop: either the
write/sleep/read sequence completes and yields a reply line (with that
iteration's clock and database outcome), or the serial call raises. -/
inductive SerIter where
  | reply (line : String) (now : DateTime) (dbOutcome : DbOutcome)
  | fault (msg : String)
deriving DecidableEq, Repr

/-- Whether the iteration's transport behaviour is a completed reply. -/
def SerIter.isReply : SerIter → Bool
  | .reply _ _ _ => true
  | .fault _ => false

/-- The iteration input carried by a completed reply; a fault carries none
and maps to a fixed placeholder. -/
def SerIter.asInput : SerIter → IterInput
  | .reply l n d => ⟨l, n, d⟩
  | .fault _ => ⟨"", ⟨0, 0, 0, 0, 0, 0⟩, DbOutcome.ok⟩

/-- Observable outcome of one run of SensorApp.serial_loop: final sink
state, number of command writes attempted, whether ser.close() ran, and the
shared running flag at exit (false is the Idle/stopped state). -/
structure LoopResult where
  sink : SinkState
  commandsSent : ℕ
  channelClosed : Bool
  running : Bool
deriving DecidableEq, Repr

/-- Embeds the while loop of SensorApp.serial_loop (src/GUI-test.py lines
254-264) after the channel opened. stopAt models the cooperative stop
request: the boundary check of iteration i reads the shared running flag,
true exactly for i < stopAt (a request arriving during iteration j makes the
flag false from boundary j+1 on). When the check sees false the loop exits
and ser.close() runs. A transport fault inside the body raises to the except
handler (src/GUI-test.py lines 265-267), which calls stop_logging but never
ser.close(). fuel bounds the recursion; an exhausted fuel reports a still
running loop. -/
def serial_loop_aux (stream : ℕ → SerIter) (stopAt : ℕ) :
    ℕ → ℕ → SinkState → ℕ → LoopResult
  | 0, _, st, cmds => ⟨st, cmds, false, true⟩
  | fuel + 1, i, st, cmds =>
    if i < stopAt then
      match stream i with
      | .fault _ => ⟨st, cmds + 1, false, false⟩
      | .reply line now dbo =>
        serial_loop_aux stream stopAt fuel (i + 1)
          (loop_iteration line now dbo st) (cmds + 1)
    else ⟨st, cmds, true, false⟩

/-- One run of the GUI serial loop from its start state. -/
def serial_loop_run (stream : ℕ → SerIter) (stopAt fuel : ℕ)
    (st0 : SinkState) : LoopResult :=
  serial_loop_aux stream stopAt fuel 0 st0 0

/-! Sanity examples: the parser on the spec's concrete lines. -/

example : pyFloat ("+00.963") = some ⟨963, 3⟩ := by decide

example : pyFloat ("Air") = none := by decide

example : (⟨963, 3⟩ : Decn).toRat = 963 / 1000 := by
  simp [Decn.toRat]
  norm_num

example :
    parse_response ("A +00.963 +031.28 -0.0057 -0.0053 +000031.3    Air") =
      some ⟨"A", ⟨963, 3⟩, ⟨3128, 2⟩, ⟨-57, 4⟩, ⟨-53, 4⟩, ⟨313, 1⟩, "Air"⟩ := by
  decide

example : parse_response ("A +00.963") = none := by decide

example : parse_response ("") = none := by decide

/-- C1: on any line splitting into at least 6 tokens whose tokens 1..5 all
convert numerically, parse_response returns the reading with command equal to
token 0, the five numeric fields equal to the converted values of tokens 1..5
in order, and air_status equal to token 6 when present, otherwise empty
(List.getD returns the default past the end). -/
theorem parse_response_valid_line (s : String) (p t xv yv a : Decn)
    (hlen : 6 ≤ (pySplit s).length)
    (h1 : pyFloat ((pySplit s).getD 1 "") = some p)
    (h2 : pyFloat ((pySplit s).getD 2 "") = some t)
    (h3 : pyFloat ((pySplit s).getD 3 "") = some xv)
    (h4 : pyFloat ((pySplit s).getD 4 "") = some yv)
    (h5 : pyFloat ((pySplit s).getD 5 "") = some a) :
    parse_response s =
      some ⟨(pySplit s).getD 0 "", p, t, xv, yv, a, (pySplit s).getD 6 ""⟩ := by
  unfold parse_response
  simp only [hlen, if_true, if_pos, h1, h2, h3, h4, h5]

/-- Witness for C1 on the spec's own example line. -/
theorem parse_response_valid_line_witness :
    parse_response ("A +00.963 +031.28 -0.0057 -0.0053 +000031.3    Air") =
      some ⟨"A", ⟨963, 3⟩, ⟨3128, 2⟩, ⟨-57, 4⟩, ⟨-53, 4⟩, ⟨313, 1⟩, "Air"⟩ := by
  have h := parse_response_valid_line
    ("A +00.963 +031.28 -0.0057 -0.0053 +000031.3    Air")
    ⟨963, 3⟩ ⟨3128, 2⟩ ⟨-57, 4⟩ ⟨-53, 4⟩ ⟨313, 1⟩
    (by decide) (by decide) (by decide) (by decide) (by decide) (by decide)
  exact h.trans (by decide)

/-- C2: a line of fewer than 6 tokens, or one in which some token among
1..5 fails the numeric conversion, is rejected: parse_response returns none.
parse_response is a total Lean function, the image of the Python function
whose try/except confines every conversion failure, so no input makes it
raise past its boundary. -/
theorem parse_response_rejects (s : String)
    (h : (pySplit s).length < 6 ∨
      pyFloat ((pySplit s).getD 1 "") = none ∨
      pyFloat ((pySplit s).getD 2 "") = none ∨
      pyFloat ((pySplit s).getD 3 "") = none ∨
      pyFloat ((pySplit s).getD 4 "") = none ∨
      pyFloat ((pySplit s).getD 5 "") = none) :
    parse_response s = none := by
  unfold parse_response
  by_cases hlen : 6 ≤ (pySplit s).length
  · simp only [hlen, if_true, if_pos]
    rcases h with h | h | h | h | h | h
    · omega
    all_goals
      cases e1 : pyFloat ((pySplit s).getD 1 "") <;>
        cases e2 : pyFloat ((pySplit s).getD 2 "") <;>
          cases e3 : pyFloat ((pySplit s).getD 3 "") <;>
            cases e4 : pyFloat ((pySplit s).getD 4 "") <;>
              cases e5 : pyFloat ((pySplit s).getD 5 "") <;>
                simp_all
  · simp only [hlen, if_false, if_neg, not_false_iff]

/-- Witness for C2 on the spec's malformed scenario line of two tokens. -/
theorem parse_response_rejects_witness :
    parse_response ("A +00.963") = none :=
  parse_response_rejects ("A +00.963") (Or.inl (by decide))

/-- Tokens produced by the split worker contain no whitespace characters,
provided the accumulated partial token contains none. -/
theorem splitWsAux_ws_free (cs : List Char) : ∀ (acc : List Char),
    (∀ c ∈ acc, pyIsSpace c = false) →
    ∀ t ∈ splitWsAux cs acc, ∀ c ∈ t.data, pyIsSpace c = false := by
  induction cs with
  | nil =>
    intro acc hacc t ht c hc
    by_cases ha : acc = []
    · simp [splitWsAux, ha] at ht
    · simp only [splitWsAux, if_neg ha, List.mem_singleton] at ht
      subst ht
      have hrev : c ∈ acc.reverse := hc
      exact hacc c (List.mem_reverse.mp hrev)
  | cons d ds ih =>
    intro acc hacc t ht c hc
    by_cases hd : pyIsSpace d
    · by_cases ha : acc = []
      · simp only [splitWsAux, if_pos hd, if_pos ha] at ht
        exact ih [] (by simp) t ht c hc
      · simp only [splitWsAux, if_pos hd, if_neg ha] at ht
        rcases List.mem_cons.mp ht with h | h
        · subst h
          have hrev : c ∈ acc.reverse := hc
          exact hacc c (List.mem_reverse.mp hrev)
        · exact ih [] (by simp) t h c hc
    · simp only [splitWsAux, if_neg hd] at ht
      refine ih (d :: acc) ?_ t ht c hc
      intro e he
      rcases List.mem_cons.mp he with rfl | he
      · simpa using hd
      · exact hacc e he

/-- Every token pySplit returns is free of whitespace characters. -/
theorem pySplit_ws_free (s : String) :
    ∀ t ∈ pySplit s, ∀ c ∈ t.data, pyIsSpace c = false :=
  splitWsAux_ws_free s.data [] (by simp)

/-- Any indexed token of a split line (with empty-string default) is free
of whitespace characters. -/
theorem pySplit_getD_ws_free (s : String) (i : ℕ) :
    ∀ c ∈ ((pySplit s).getD i "").data, pyIsSpace c = false := by
  by_cases hi : i < (pySplit s).length
  · have hmem : (pySplit s).getD i "" ∈ pySplit s := by
      rw [List.getD_eq_getElem _ _ hi]
      exact List.getElem_mem hi
    exact pySplit_ws_free s _ hmem
  · have hempty : (pySplit s).getD i "" = "" := by
      rw [List.getD_eq_default]
      omega
    intro c hc
    rw [hempty] at hc
    exact absurd hc (List.not_mem_nil c)


/-- On a successfully parsed line the reading's command is token 0 and its
air_status is token 6 when present, the empty string otherwise. -/
theorem parse_response_some_fields (s : String) (r : SensorReading)
    (h : parse_response s = some r) :
    r.command = (pySplit s).getD 0 "" ∧
      r.air_status = (pySplit s).getD 6 "" := by
  by_cases hlen : 6 ≤ (pySplit s).length
  · simp only [parse_response, hlen, if_true, if_pos] at h
    rcases e1 : pyFloat ((pySplit s).getD 1 "") with _ | p1 <;> rw [e1] at h
    · simp at h
    rcases e2 : pyFloat ((pySplit s).getD 2 "") with _ | p2 <;> rw [e2] at h
    · simp at h
    rcases e3 : pyFloat ((pySplit s).getD 3 "") with _ | p3 <;> rw [e3] at h
    · simp at h
    rcases e4 : pyFloat ((pySplit s).getD 4 "") with _ | p4 <;> rw [e4] at h
    · simp at h
    rcases e5 : pyFloat ((pySplit s).getD 5 "") with _ | p5 <;> rw [e5] at h
    · simp at h
    cases Option.some.inj h
    exact ⟨rfl, rfl⟩
  · simp only [parse_response, hlen, if_false, reduceIte] at h
    exact absurd h (by simp)

/-- C10: the parse result of a line with at least 6 tokens depends only on
its first 7 tokens — tokens at index 7 and beyond are silently discarded —
the reading keeps only token 6 as air_status, and air_status never contains
whitespace (tokens come from a whitespace split). -/
theorem parse_response_keeps_first_seven (s₁ s₂ : String) (r : SensorReading)
    (h₁ : 6 ≤ (pySplit s₁).length) (h₂ : 6 ≤ (pySplit s₂).length)
    (htake : (pySplit s₁).take 7 = (pySplit s₂).take 7)
    (hr : parse_response s₁ = some r) :
    parse_response s₁ = parse_response s₂ ∧
      r.air_status = (pySplit s₁).getD 6 "" ∧
      ∀ c ∈ r.air_status.data, pyIsSpace c = false := by
  have hg : ∀ i : ℕ, i < 7 → (pySplit s₁).getD i "" = (pySplit s₂).getD i "" := by
    intro i hi
    have hcast := congrArg (fun l => l.getD i "") htake
    simpa [List.getD_eq_getElem?_getD, List.getElem?_take, hi] using hcast
  have hstat := (parse_response_some_fields s₁ r hr).2
  refine ⟨?_, hstat, ?_⟩
  · simp only [parse_response, h₁, h₂, if_true, if_pos]
    rw [hg 0 (by omega), hg 1 (by omega), hg 2 (by omega), hg 3 (by omega),
      hg 4 (by omega), hg 5 (by omega), hg 6 (by omega)]
  · rw [hstat]
    exact pySplit_getD_ws_free s₁ 6

/-- Witness for C10: two nine- and eight-token lines agreeing on their first
seven tokens parse identically, with air_status the seventh token only. -/
theorem parse_response_keeps_first_seven_witness :
    parse_response ("A 1 2 3 4 5 Air extra1 extra2") =
        parse_response ("A 1 2 3 4 5 Air other") ∧
      ("Air" : String) = (pySplit ("A 1 2 3 4 5 Air extra1 extra2")).getD 6 "" ∧
      ∀ c ∈ ("Air" : String).data, pyIsSpace c = false := by
  have h := parse_response_keeps_first_seven
    ("A 1 2 3 4 5 Air extra1 extra2") ("A 1 2 3 4 5 Air other")
    ⟨"A", ⟨1, 0⟩, ⟨2, 0⟩, ⟨3, 0⟩, ⟨4, 0⟩, ⟨5, 0⟩, "Air"⟩
    (by decide) (by decide) (by decide) (by decide)
  exact ⟨h.1, h.2.1, h.2.2⟩

/-- C3: when the durable-store write raises internally, log_to_database
captures the failure and returns False with the table unchanged — no
exception propagates — and the dual write of the same iteration still runs
log_to_csv afterwards, appending the row that records the reading. -/
theorem db_failure_isolated (data : SensorReading) (now : DateTime)
    (msg : String) (st : SinkState) :
    (log_to_database data (DbOutcome.err msg) st.db).1 = false ∧
      (log_to_database data (DbOutcome.err msg) st.db).2 = st.db ∧
      (dual_write data now (DbOutcome.err msg) st).csv =
        st.csv ++ [Cell.str (strftime_ymd_hms now) :: readingValues data] :=
  ⟨rfl, rfl, rfl⟩

/-- C5: an iteration whose line the parser rejects writes to neither sink
and the loop carries on: dropping the rejected iteration from any run leaves
the final sink state unchanged, so every later iteration still executes with
the same effect. -/
theorem rejected_line_skips_iteration (line : String) (now : DateTime)
    (o : DbOutcome) (st : SinkState) (pre post : List IterInput)
    (hrej : parse_response line = none) :
    loop_iteration line now o st = st ∧
      run_iterations (pre ++ ⟨line, now, o⟩ :: post) st =
        run_iterations (pre ++ post) st := by
  have hstep : ∀ s, loop_iteration line now o s = s := by
    intro s
    unfold loop_iteration
    rw [hrej]
  refine ⟨hstep st, ?_⟩
  unfold run_iterations
  rw [List.foldl_append, List.foldl_append, List.foldl_cons, hstep]

/-- Witness for C5: the empty line a read timeout yields is rejected and the
iteration around it is a no-op, on a concrete two-iteration run. -/
theorem rejected_line_skips_iteration_witness :
    loop_iteration ("") ⟨2026, 10, 12, 0, 0, 0⟩ DbOutcome.ok ⟨none, []⟩ =
        ⟨none, []⟩ ∧
      run_iterations ([] ++ ⟨"", ⟨2026, 10, 12, 0, 0, 0⟩, DbOutcome.ok⟩ ::
          [⟨"A 1 2 3 4 5", ⟨2026, 10, 12, 0, 0, 1⟩, DbOutcome.ok⟩]) ⟨none, []⟩ =
        run_iterations ([] ++ [⟨"A 1 2 3 4 5", ⟨2026, 10, 12, 0, 0, 1⟩,
          DbOutcome.ok⟩]) ⟨none, []⟩ :=
  rejected_line_skips_iteration ("") ⟨2026, 10, 12, 0, 0, 0⟩ DbOutcome.ok
    ⟨none, []⟩ [] [⟨"A 1 2 3 4 5", ⟨2026, 10, 12, 0, 0, 1⟩, DbOutcome.ok⟩]
    (by decide)

/-- A character written as 48 plus a decimal digit value is a digit
character. -/
theorem digit_char_isDigit : ∀ d : ℕ, d < 10 → (Char.ofNat (48 + d)).isDigit = true := by
  decide

/-- pad2 renders only digit characters for in-range inputs. -/
theorem pad2_isDigit (n : ℕ) (h : n < 100) :
    ∀ c ∈ (pad2 n).data, c.isDigit = true := by
  intro c hc
  have hlist : c ∈ [Char.ofNat (48 + n / 10), Char.ofNat (48 + n % 10)] := hc
  rcases List.mem_cons.mp hlist with rfl | hlist
  · exact digit_char_isDigit _ (by omega)
  rcases List.mem_cons.mp hlist with rfl | hlist
  · exact digit_char_isDigit _ (Nat.mod_lt _ (by norm_num))
  · exact absurd hlist (List.not_mem_nil c)

/-- pad4 renders only digit characters for in-range inputs. -/
theorem pad4_isDigit (n : ℕ) (h : n < 10000) :
    ∀ c ∈ (pad4 n).data, c.isDigit = true := by
  intro c hc
  have hlist : c ∈ [Char.ofNat (48 + n / 1000), Char.ofNat (48 + n / 100 % 10),
      Char.ofNat (48 + n / 10 % 10), Char.ofNat (48 + n % 10)] := hc
  rcases List.mem_cons.mp hlist with rfl | hlist
  · exact digit_char_isDigit _ (by omega)
  rcases List.mem_cons.mp hlist with rfl | hlist
  · exact digit_char_isDigit _ (Nat.mod_lt _ (by norm_num))
  rcases List.mem_cons.mp hlist with rfl | hlist
  · exact digit_char_isDigit _ (Nat.mod_lt _ (by norm_num))
  rcases List.mem_cons.mp hlist with rfl | hlist
  · exact digit_char_isDigit _ (Nat.mod_lt _ (by norm_num))
  · exact absurd hlist (List.not_mem_nil c)

/-- C8: every append-log write emits exactly one row — the formatted local
timestamp first, then the reading's fields in the fixed order Command,
Pressure, Temperature, X, Y, Air_Value, Air_Status — matching the header
row; the timestamp renders as four digits, dash, two digits, dash, two
digits, space, two digits, colon, two digits, colon, two digits
(YYYY-MM-DD HH:MM:SS, 19 characters), digits only between the separators,
for the in-range fields datetime carries. -/
theorem log_to_csv_row_format (data : SensorReading) (now : DateTime)
    (file : List (List Cell))
    (hy : now.year < 10000) (hmo : now.month < 100) (hd : now.day < 100)
    (hh : now.hour < 100) (hmi : now.minute < 100) (hs : now.second < 100) :
    log_to_csv data now file =
      file ++ [[Cell.str (strftime_ymd_hms now), Cell.str data.command,
        Cell.num data.pressure, Cell.num data.temperature, Cell.num data.x,
        Cell.num data.y, Cell.num data.air_value, Cell.str data.air_status]] ∧
      csv_headers = ["Timestamp", "Command", "Pressure", "Temperature", "X",
        "Y", "Air_Value", "Air_Status"] ∧
      (strftime_ymd_hms now).data =
        (pad4 now.year).data ++ '-' :: ((pad2 now.month).data ++ '-' ::
          ((pad2 now.day).data ++ ' ' :: ((pad2 now.hour).data ++ ':' ::
            ((pad2 now.minute).data ++ ':' :: (pad2 now.second).data)))) ∧
      (strftime_ymd_hms now).length = 19 ∧
      (∀ c ∈ (pad4 now.year).data, c.isDigit = true) ∧
      (∀ c ∈ (pad2 now.month).data, c.isDigit = true) ∧
      (∀ c ∈ (pad2 now.day).data, c.isDigit = true) ∧
      (∀ c ∈ (pad2 now.hour).data, c.isDigit = true) ∧
      (∀ c ∈ (pad2 now.minute).data, c.isDigit = true) ∧
      (∀ c ∈ (pad2 now.second).data, c.isDigit = true) := by
  refine ⟨rfl, rfl, ?_, ?_, pad4_isDigit _ hy, pad2_isDigit _ hmo,
    pad2_isDigit _ hd, pad2_isDigit _ hh, pad2_isDigit _ hmi,
    pad2_isDigit _ hs⟩
  · simp [strftime_ymd_hms, String.data_append, pad2, pad4]
  · simp only [strftime_ymd_hms, String.length_append, pad2, pad4]
    rfl

/-- Witness for C8 at a concrete clock instant and the spec's example
reading. -/
theorem log_to_csv_row_format_witness :
    log_to_csv ⟨"A", ⟨963, 3⟩, ⟨3128, 2⟩, ⟨-57, 4⟩, ⟨-53, 4⟩, ⟨313, 1⟩, "Air"⟩
        ⟨2026, 10, 12, 14, 30, 5⟩ [] =
      [] ++ [[Cell.str (strftime_ymd_hms ⟨2026, 10, 12, 14, 30, 5⟩),
        Cell.str "A", Cell.num ⟨963, 3⟩, Cell.num ⟨3128, 2⟩,
        Cell.num ⟨-57, 4⟩, Cell.num ⟨-53, 4⟩, Cell.num ⟨313, 1⟩,
        Cell.str "Air"]] ∧
      (strftime_ymd_hms ⟨2026, 10, 12, 14, 30, 5⟩).length = 19 ∧
      strftime_ymd_hms ⟨2026, 10, 12, 14, 30, 5⟩ = "2026-10-12 14:30:05" := by
  have h := log_to_csv_row_format
    ⟨"A", ⟨963, 3⟩, ⟨3128, 2⟩, ⟨-57, 4⟩, ⟨-53, 4⟩, ⟨313, 1⟩, "Air"⟩
    ⟨2026, 10, 12, 14, 30, 5⟩ []
    (by decide) (by decide) (by decide) (by decide) (by decide) (by decide)
  exact ⟨h.1, h.2.2.2.1, by decide⟩

/-- An existing relation is a fixed point of table provisioning: repeated
CREATE TABLE IF NOT EXISTS calls leave it untouched. -/
theorem init_database_fixed (m : ℕ) :
    (fun db => (init_database DbOutcome.ok db).2)^[m] (some []) = some [] := by
  induction m with
  | zero => rfl
  | succ k ih =>
    rw [Function.iterate_succ_apply]
    exact ih

/-- An existing backing file is a fixed point of header provisioning. -/
theorem ensure_csv_header_fixed (m : ℕ) :
    ensure_csv_header^[m] (some [csv_headers.map Cell.str]) =
      some [csv_headers.map Cell.str] := by
  induction m with
  | zero => rfl
  | succ k ih =>
    rw [Function.iterate_succ_apply]
    exact ih

/-- C7: provisioning is idempotent — N applications of table creation to a
missing relation yield exactly one (empty) relation, N applications of
header creation to a missing file yield one file holding exactly one header
row, every table-creation invocation reports success (CREATE TABLE IF NOT
EXISTS raises no duplicate-definition error), and an existing file is never
rewritten. -/
theorem provisioning_idempotent (n : ℕ) (hn : 1 ≤ n) :
    (fun db => (init_database DbOutcome.ok db).2)^[n] none = some [] ∧
      ensure_csv_header^[n] none = some [csv_headers.map Cell.str] ∧
      ((ensure_csv_header^[n] none).getD []).count
        (csv_headers.map Cell.str) = 1 ∧
      (∀ db, (init_database DbOutcome.ok db).1 = true) ∧
      (∀ rows, ensure_csv_header (some rows) = some rows) := by
  obtain ⟨m, rfl⟩ : ∃ m, n = m + 1 := ⟨n - 1, by omega⟩
  have hdb : (fun db => (init_database DbOutcome.ok db).2)^[m + 1] none =
      some [] := by
    rw [Function.iterate_succ_apply]
    exact init_database_fixed m
  have hcsv : ensure_csv_header^[m + 1] none =
      some [csv_headers.map Cell.str] := by
    rw [Function.iterate_succ_apply]
    exact ensure_csv_header_fixed m
  refine ⟨hdb, hcsv, ?_, ?_, ?_⟩
  · rw [hcsv]
    simp
  · intro db
    cases db <;> rfl
  · intro rows
    rfl

/-- Witness for C7 at two invocations. -/
theorem provisioning_idempotent_witness :
    (fun db => (init_database DbOutcome.ok db).2)^[2] none = some [] ∧
      ensure_csv_header^[2] none = some [csv_headers.map Cell.str] ∧
      ((ensure_csv_header^[2] none).getD []).count
        (csv_headers.map Cell.str) = 1 ∧
      (∀ db, (init_database DbOutcome.ok db).1 = true) ∧
      (∀ rows, ensure_csv_header (some rows) = some rows) :=
  provisioning_idempotent 2 (by decide)

/-- C4 counterexample: the target name is NOT sanitized in its entirety —
a reactor number containing a semicolon reaches the table name verbatim —
and a sensor name that sanitizes to the empty string is not rejected at
start (only raw emptiness is checked). -/
theorem sanitize_claim_counterexample :
    ';' ∈ (table_name_of ("1;") ("probe")).data ∧
      sanitize_identifier ("!!!") = "" ∧
      start_accepted false ("1") ("!!!") true = true :=
  ⟨by decide, by decide, by decide⟩

/-- C4 (amended): only the sensor-name component of the target name passes
through sanitize_identifier — every retained character is the lower-case
image of an alphanumeric-or-underscore character of the sensor name — while
the reactor number and the fixed pieces are interpolated verbatim; the start
request is rejected precisely when the raw reactor number or raw sensor
name is empty, so an input that merely sanitizes to empty is accepted. -/
theorem table_name_sanitizes_sensor_only (reactor sensor : String) :
    (table_name_of reactor sensor).data =
      'r' :: (reactor.data ++ '_' ::
        ((sanitize_identifier sensor).data ++ ("_sensor_data").data)) ∧
      (∀ c ∈ (sanitize_identifier sensor).data,
        ∃ c0 ∈ sensor.data,
          c = c0.toLower ∧ (c0.isAlphanum || c0 == '_') = true) ∧
      start_accepted false reactor sensor true =
        (!(reactor == "") && !(sensor == "")) := by
  refine ⟨?_, ?_, ?_⟩
  · simp [table_name_of, String.data_append]
  · intro c hc
    have hc2 : c ∈ (sensor.data.filter
        (fun c => c.isAlphanum || c == '_')).map Char.toLower := hc
    rcases List.mem_map.mp hc2 with ⟨c0, hc0, rfl⟩
    rcases List.mem_filter.mp hc0 with ⟨hmem, hpred⟩
    exact ⟨c0, hmem, rfl, hpred⟩
  · simp [start_accepted]

/-- C6: the GUI serial loop evaluated at a concrete fatal transport fault —
the write of iteration 0 raises after the channel opened. The except handler
of SensorApp.serial_loop stops the run (the running flag ends false) but
never calls ser.close(), so the result reports the channel NOT closed; the
claim that every exit path closes the channel holds for src/script.py's
finally block but not here. -/
theorem serial_loop_fault_leaves_channel_open :
    serial_loop_run (fun _ => SerIter.fault ("serial write failed")) 5 3
        ⟨none, []⟩ =
      ⟨⟨none, []⟩, 1, false, false⟩ :=
  rfl

/-- While the boundary check keeps seeing the running flag up and the
transport keeps completing its replies, the GUI serial loop executes exactly
the iterations whose index precedes the stop index, sends one command per
executed iteration, then observes the stop, closes the channel and exits
with the flag down. -/
theorem serial_loop_aux_run (stream : ℕ → SerIter) (stopAt : ℕ) :
    ∀ (fuel i : ℕ) (st : SinkState) (cmds : ℕ),
      stopAt - i < fuel →
      (∀ k, i ≤ k → k < stopAt → (stream k).isReply = true) →
      serial_loop_aux stream stopAt fuel i st cmds =
        ⟨run_iterations ((List.range (stopAt - i)).map
            (fun k => (stream (i + k)).asInput)) st,
          cmds + (stopAt - i), true, false⟩ := by
  intro fuel
  induction fuel with
  | zero =>
    intro i st cmds hfuel hrep
    exact absurd hfuel (by omega)
  | succ f ih =>
    intro i st cmds hfuel hrep
    by_cases hi : i < stopAt
    · have hr := hrep i le_rfl hi
      cases hs : stream i with
      | fault m =>
        rw [hs] at hr
        simp [SerIter.isReply] at hr
      | reply line now dbo =>
        have hstep : serial_loop_aux stream stopAt (f + 1) i st cmds =
            serial_loop_aux stream stopAt f (i + 1)
              (loop_iteration line now dbo st) (cmds + 1) := by
          simp only [serial_loop_aux, if_pos hi, hs]
        have hn : stopAt - i = (stopAt - (i + 1)) + 1 := by omega
        have hlist : (List.range (stopAt - i)).map
            (fun k => (stream (i + k)).asInput) =
          (stream i).asInput :: (List.range (stopAt - (i + 1))).map
            (fun k => (stream (i + 1 + k)).asInput) := by
          rw [hn, List.range_succ_eq_map, List.map_cons, List.map_map]
          have harg : ((fun k => (stream (i + k)).asInput) ∘ Nat.succ) =
              (fun k => (stream (i + 1 + k)).asInput) := by
            funext k
            have hadd : i + (k + 1) = i + 1 + k := by omega
            simp [Function.comp, Nat.succ_eq_add_one, hadd]
          rw [harg]
          simp
        rw [hstep, ih (i + 1) (loop_iteration line now dbo st) (cmds + 1)
          (by omega) (fun k hk1 hk2 => hrep k (by omega) hk2)]
        simp only [LoopResult.mk.injEq, and_true]
        refine ⟨?_, by omega⟩
        rw [hlist, hs]
        simp only [run_iterations, List.foldl_cons]
        rfl
    · have h0 : stopAt - i = 0 := by omega
      simp only [serial_loop_aux, if_neg hi, h0]
      simp [run_iterations]

/-- C9: cancellation is cooperative. A stop request arriving during
iteration j is observed at the next boundary check only, so the loop runs
exactly the iterations 0..j — the in-progress cycle completes and its sink
writes are retained in the final state — exactly j+1 commands are sent
(none after the boundary check observes the stop), the channel is then
closed, and the run ends with the flag down (the Idle state). -/
theorem serial_loop_cooperative_stop (stream : ℕ → SerIter) (j fuel : ℕ)
    (st0 : SinkState) (hfuel : j + 1 < fuel)
    (hrep : ∀ k, k ≤ j → (stream k).isReply = true) :
    serial_loop_run stream (j + 1) fuel st0 =
      ⟨run_iterations ((List.range (j + 1)).map
          (fun k => (stream k).asInput)) st0,
        j + 1, true, false⟩ := by
  unfold serial_loop_run
  have h := serial_loop_aux_run stream (j + 1) fuel 0 st0 0 (by omega)
    (fun k hk1 hk2 => hrep k (by omega))
  simpa using h

/-- Witness for C9: a stop requested during iteration 1 of a run of healthy
replies completes that cycle and no more, with the channel closed and the
flag down at exit. -/
theorem serial_loop_cooperative_stop_witness :
    serial_loop_run
        (fun _ => SerIter.reply ("A 1 2 3 4 5") ⟨2026, 10, 12, 0, 0, 0⟩
          DbOutcome.ok) 2 4 ⟨none, []⟩ =
      ⟨run_iterations ((List.range 2).map (fun k =>
          ((fun _ => SerIter.reply ("A 1 2 3 4 5") ⟨2026, 10, 12, 0, 0, 0⟩
            DbOutcome.ok) k).asInput)) ⟨none, []⟩,
        2, true, false⟩ :=
  serial_loop_cooperative_stop
    (fun _ => SerIter.reply ("A 1 2 3 4 5") ⟨2026, 10, 12, 0, 0, 0⟩
      DbOutcome.ok) 1 4 ⟨none, []⟩ (by omega) (fun k hk => rfl)
